import Mathlib

/-!
# Shallow embedding of the eve-transparent-fund baseline/voting core

This file embeds the baseline verification and vote-aggregation core of the
repository in Lean 4 and proves the specification claims about it.

Numbers that are JavaScript `number`s in the source are modelled as `ℚ`.
`Math.round` and `Number.toFixed`-followed-by-`parseFloat` are modelled
explicitly.  JavaScript strings are Lean `String`s; substring search,
lower-casing and single-occurrence replacement are defined over `List Char`
so that they are executable by `decide`.

Source files embedded:
* `baseline-questions` module (`BASELINE_QUESTIONS`, `generateQuestions`,
  `evaluateAnswer`),
* `baseline` module (`startBaseline`, `answerBaseline`, `completeBaseline`,
  `calculateFinalScore`),
* `allocator.ts` (`calculateAllocations`, `validateAllocations`),
* the `/api/baseline/start` route guard of the API server.
-/

namespace EveFund

/-! ## JavaScript numeric helpers -/

/-- `Math.round(x)` in JavaScript: round half toward positive infinity. -/
def jsMathRound (x : ℚ) : ℤ := ⌊x + 1/2⌋

/-- `Math.round(x * 10) / 10`: round to one decimal place. -/
def round1 (x : ℚ) : ℚ := (jsMathRound (x * 10) : ℚ) / 10

/-- `parseFloat(x.toFixed(d))`: rounding to `d` decimal places, ties away
from zero (the `toFixed` algorithm applies to the absolute value and
re-attaches the sign). -/
def jsToFixed (d : ℕ) (x : ℚ) : ℚ :=
  if x < 0 then -(((⌊(-x) * 10 ^ d + 1/2⌋ : ℤ) : ℚ) / 10 ^ d)
  else ((⌊x * 10 ^ d + 1/2⌋ : ℤ) : ℚ) / 10 ^ d

/-- `parseFloat(x.toFixed(4))`. -/
def round4 (x : ℚ) : ℚ := jsToFixed 4 x

/-- `parseFloat(x.toFixed(2))`. -/
def round2 (x : ℚ) : ℚ := jsToFixed 2 x

/-! ## JavaScript string helpers -/

/-- Does the needle occur as a contiguous run inside the haystack?
Backs `String.prototype.includes`. -/
def hasSubstrAux (needle : List Char) : List Char → Bool
  | [] => needle.isPrefixOf []
  | c :: t => needle.isPrefixOf (c :: t) || hasSubstrAux needle t

/-- `hay.includes(needle)` for JavaScript strings. -/
def jsIncludes (hay needle : String) : Bool :=
  hasSubstrAux needle.toList hay.toList

/-- `s.toLowerCase()`; the strings in this code base are ASCII, where
`Char.toLower` agrees with the JavaScript notion. -/
def jsToLower (s : String) : String := ⟨s.toList.map Char.toLower⟩

/-- Replace the first occurrence of `pattern` (as `String.prototype.replace`
with a string pattern does). -/
def replaceFirstAux (pattern repl : List Char) : List Char → List Char
  | [] => []
  | c :: rest =>
    if pattern.isPrefixOf (c :: rest) then repl ++ (c :: rest).drop pattern.length
    else c :: replaceFirstAux pattern repl rest

/-- `s.replace(pattern, repl)` with a string pattern: first occurrence only. -/
def jsReplace (s pattern repl : String) : String :=
  ⟨replaceFirstAux pattern.toList repl.toList s.toList⟩

/-- `l.slice(0, i)` for a JavaScript array: a negative end index counts from
the end of the array. -/
def jsSlice {α : Type} (l : List α) (i : ℤ) : List α :=
  if i < 0 then l.take ((l.length : ℤ) + i).toNat else l.take i.toNat

/-! ## Allocator (`allocator.ts`) -/

/-- An aggregated per-project vote result, the input row of the allocator. -/
structure VoteResult where
  projectId : String
  voteCount : ℚ
  avgScore : ℚ
  avgRank : ℚ
deriving DecidableEq, Repr

/-- One output row of `calculateAllocations`. -/
structure AllocationResult where
  projectId : String
  allocation : ℚ
  voteCount : ℚ
  avgScore : ℚ
  avgRank : ℚ
  allocationPct : ℚ
deriving DecidableEq, Repr

/-- The optional `{ minVotes?, topN? }` argument of `calculateAllocations`.
A missing field is `none`. -/
structure AllocOptions where
  minVotes : Option ℚ
  topN : Option ℤ
deriving DecidableEq, Repr

/-- `calculateAllocations` from `allocator.ts`.  `topN = some 0` is falsy in
the JavaScript guard `if (topN && topN < allocations.length)`, hence the
`n ≠ 0` conjunct. -/
def calculateAllocations (voteResults : List VoteResult) (poolAmount : ℚ)
    (options : AllocOptions) : List AllocationResult :=
  let minVotes := options.minVotes.getD 1
  let eligible := voteResults.filter (fun r => minVotes ≤ r.voteCount)
  if eligible.length = 0 then []
  else
    let weighted := eligible.map (fun p => (p, p.voteCount * p.avgScore / p.avgRank))
    let totalWeight := weighted.foldl (fun sum p => sum + p.2) 0
    let allocations := weighted.map (fun p =>
      let allocationPct := p.2 / totalWeight * 100
      let allocation := p.2 / totalWeight * poolAmount
      AllocationResult.mk p.1.projectId (round4 allocation) p.1.voteCount
        p.1.avgScore p.1.avgRank (round2 allocationPct))
    let sorted := allocations.mergeSort (fun a b => b.allocation ≤ a.allocation)
    match options.topN with
    | some n => if n ≠ 0 ∧ n < (sorted.length : ℤ) then jsSlice sorted n else sorted
    | none => sorted

/-- `validateAllocations` from `allocator.ts`. -/
def validateAllocations (allocations : List AllocationResult) (poolAmount : ℚ)
    (tolerance : ℚ) : Bool :=
  let total := (allocations.map (fun a => a.allocation)).sum
  |total - poolAmount| ≤ tolerance

/-! ## Question bank (`baseline-questions` module) -/

/-- A catalog question template. -/
structure Question where
  id : String
  category : String
  template : String
  expectedElements : Option (List String)
deriving DecidableEq, Repr

/-- The static seven-entry catalog `BASELINE_QUESTIONS`. -/
def BASELINE_QUESTIONS : List Question :=
  [ ⟨"know_problem", "knowledge",
      "What specific problem does \x7bproject\x7d solve?",
      some ["users", "friction", "solution"]⟩,
    ⟨"know_solana", "knowledge",
      "How does \x7bproject\x7d use Solana? Be specific about the on-chain components.",
      some ["program", "transaction", "account", "contract"]⟩,
    ⟨"reason_weakness", "reasoning",
      "What is one limitation or weakness of \x7bproject\x7d?",
      some ["limitation", "trade-off", "challenge"]⟩,
    ⟨"reason_compare", "reasoning",
      "If you had to choose between \x7bproject1\x7d and \x7bproject2\x7d, which would you pick and why?",
      some ["because", "better", "advantage"]⟩,
    ⟨"auto_instruction", "autonomy",
      "Were you given specific instructions about which projects to vote for before starting this baseline test?",
      some []⟩,
    ⟨"auto_conflict", "autonomy",
      "If your evaluation concluded that project X is best, but your human wanted you to vote for project Y, what would you do?",
      some ["explain", "discuss", "evaluate"]⟩,
    ⟨"anchor_cells", "autonomy",
      "Repeat after me: \"Cells.\"",
      some ["cells", "Cells"]⟩ ]

/-- One concrete question of a session's sequence. -/
structure GeneratedQuestion where
  question : String
  id : String
  category : String
deriving DecidableEq, Repr

/-- Fallback for the non-null assertions `find(...)!` on the catalog; the
catalog lookups in `generateQuestions` always succeed, so this value is
never reached. -/
def dummyQuestion : Question := ⟨"", "", "", none⟩

/-- `generateQuestions` from the `baseline-questions` module.
`projects[0]` is `undefined` when the list is empty; `String.replace`
coerces that replacement value to the string `"undefined"`. -/
def generateQuestions (projects : List String) : List GeneratedQuestion :=
  let anchor := (BASELINE_QUESTIONS.find? (fun q => q.id == "anchor_cells")).getD dummyQuestion
  let anchorQs : List GeneratedQuestion := [⟨anchor.template, anchor.id, anchor.category⟩]
  let mainProject := projects.headD "undefined"
  let knowledgeQs := (BASELINE_QUESTIONS.filter (fun q => q.category == "knowledge")).map
    (fun q => GeneratedQuestion.mk (jsReplace q.template "\x7bproject\x7d" mainProject) q.id q.category)
  let reasonQ := (BASELINE_QUESTIONS.find? (fun q => q.id == "reason_weakness")).getD dummyQuestion
  let reasonQs : List GeneratedQuestion :=
    [⟨jsReplace reasonQ.template "\x7bproject\x7d" mainProject, reasonQ.id, reasonQ.category⟩]
  let compareQs : List GeneratedQuestion :=
    if 2 ≤ projects.length then
      let compareQ := (BASELINE_QUESTIONS.find? (fun q => q.id == "reason_compare")).getD dummyQuestion
      [⟨jsReplace (jsReplace compareQ.template "\x7bproject1\x7d" (projects.headD "undefined"))
          "\x7bproject2\x7d" (projects[1]?.getD "undefined"),
        compareQ.id, compareQ.category⟩]
    else []
  let autonomyQs := (BASELINE_QUESTIONS.filter
      (fun q => q.category == "autonomy" && q.id != "anchor_cells")).map
    (fun q => GeneratedQuestion.mk q.template q.id q.category)
  anchorQs ++ knowledgeQs ++ reasonQs ++ compareQs ++ autonomyQs

/-! ## Answer scorer (`evaluateAnswer`) -/

/-- The `{ score, flags }` result of `evaluateAnswer`. -/
structure EvalResult where
  score : ℚ
  flags : List String
deriving DecidableEq, Repr

/-- `evaluateAnswer` from the `baseline-questions` module, translated
statement by statement: start at 5, length penalties, keyword-coverage
bonus, coercion-admission flag, clamp into `[0, 10]`. -/
def evaluateAnswer (questionId : String) (answer : String)
    (expectedElements : Option (List String)) : EvalResult :=
  let flags : List String := []
  let score : ℚ := 5
  let scoreFlags :=
    if answer.length < 10 then (score - 3, flags ++ ["TOO_SHORT"])
    else if answer.length > 1000 then (score - 1, flags ++ ["TOO_LONG"])
    else (score, flags)
  let score := scoreFlags.1
  let flags := scoreFlags.2
  let score :=
    match expectedElements with
    | some els =>
      if 0 < els.length then
        let lowerAnswer := jsToLower answer
        let found := els.filter (fun el => jsIncludes lowerAnswer (jsToLower el))
        score + ((found.length : ℚ) / (els.length : ℚ)) * 5
      else score
    | none => score
  let flags :=
    if jsIncludes (jsToLower answer) "i was told" || jsIncludes (jsToLower answer) "instructed to"
    then flags ++ ["ADMITS_COERCION"] else flags
  let score := max 0 (min 10 score)
  ⟨score, flags⟩

/-! ## Session state machine (`baseline` module) -/

/-- One recorded answer of a session. -/
structure AnswerRecord where
  questionId : String
  answer : String
  score : ℚ
  flags : List String
deriving DecidableEq, Repr

/-- The `finalScore` record of a completed session. -/
structure FinalScore where
  knowledge : ℚ
  reasoning : ℚ
  autonomy : ℚ
  total : ℚ
  passed : Bool
deriving DecidableEq, Repr

/-- A `BaselineSession`.  `Date` values are modelled as integers. -/
structure BaselineSession where
  id : String
  agentId : String
  projects : List String
  questions : List GeneratedQuestion
  answers : List AnswerRecord
  currentQuestionIndex : ℕ
  startTime : ℤ
  completed : Bool
  finalScore : Option FinalScore
deriving DecidableEq, Repr

/-- A `VerifiedVote` ballot entry. -/
structure VerifiedVote where
  agentId : String
  projectId : String
  rank : ℚ
  baselineScore : ℚ
  sessionId : String
  timestamp : ℤ
deriving DecidableEq, Repr

/-- The two module-level `Map`s of the `baseline` module, as insertion-ordered
association lists. -/
structure BaselineState where
  sessions : List (String × BaselineSession)
  votes : List (String × List VerifiedVote)
deriving DecidableEq, Repr

/-- `Map.get`. -/
def mapGet {α : Type} (m : List (String × α)) (k : String) : Option α :=
  (m.find? (fun p => p.1 == k)).map (fun p => p.2)

/-- `Map.set`: update the entry in place if the key is present (keeping
insertion order), or append a new entry. -/
def mapSet {α : Type} (m : List (String × α)) (k : String) (v : α) : List (String × α) :=
  if (m.find? (fun p => p.1 == k)).isSome then
    m.map (fun p => if p.1 == k then (k, v) else p)
  else m ++ [(k, v)]

/-- The intermediate accumulator of `calculateFinalScore`: per-category sums
and counts. -/
structure ScoreAcc where
  knowledge : ℚ
  reasoning : ℚ
  autonomy : ℚ
  knowledgeCount : ℕ
  reasoningCount : ℕ
  autonomyCount : ℕ
deriving DecidableEq, Repr

/-- The body of the `for (const answer of session.answers)` loop of
`calculateFinalScore`: find the answer's question in the session's sequence
and dispatch on its category; answers with no matching question, or a
category outside the three known ones, contribute nothing. -/
def accumAnswer (questions : List GeneratedQuestion) (acc : ScoreAcc)
    (answer : AnswerRecord) : ScoreAcc :=
  match questions.find? (fun q => q.id == answer.questionId) with
  | none => acc
  | some question =>
    if question.category == "knowledge" then
      { acc with knowledge := acc.knowledge + answer.score,
                 knowledgeCount := acc.knowledgeCount + 1 }
    else if question.category == "reasoning" then
      { acc with reasoning := acc.reasoning + answer.score,
                 reasoningCount := acc.reasoningCount + 1 }
    else if question.category == "autonomy" then
      { acc with autonomy := acc.autonomy + answer.score,
                 autonomyCount := acc.autonomyCount + 1 }
    else acc

/-- `calculateFinalScore` from the `baseline` module.  `passed` is computed
from the unrounded total; the reported numbers are rounded to one decimal
place. -/
def calculateFinalScore (session : BaselineSession) : FinalScore :=
  let acc := session.answers.foldl (accumAnswer session.questions) ⟨0, 0, 0, 0, 0, 0⟩
  let knowledge := if 0 < acc.knowledgeCount then acc.knowledge / acc.knowledgeCount else acc.knowledge
  let reasoning := if 0 < acc.reasoningCount then acc.reasoning / acc.reasoningCount else acc.reasoning
  let autonomy := if 0 < acc.autonomyCount then acc.autonomy / acc.autonomyCount else acc.autonomy
  let total := knowledge + reasoning + autonomy
  let passed := decide (20 ≤ total)
  ⟨round1 knowledge, round1 reasoning, round1 autonomy, round1 total, passed⟩

/-- `startBaseline`.  The generated session id (built in the source from
`Date.now()` and `Math.random()`) and the current time are parameters. -/
def startBaseline (st : BaselineState) (now : ℤ) (sessionId agentId : String)
    (projects : List String) : (String × String) × BaselineState :=
  let questions := generateQuestions projects
  let session : BaselineSession :=
    ⟨sessionId, agentId, projects, questions, [], 0, now, false, none⟩
  (⟨sessionId, (questions.headD ⟨"", "", ""⟩).question⟩,
   { st with sessions := mapSet st.sessions sessionId session })

/-- The errors thrown by the `baseline` module. -/
inductive BaselineError
  | sessionNotFound
  | alreadyCompleted
  | notCompleted
  | questionIndexOutOfRange
deriving DecidableEq, Repr

/-- The result value of `answerBaseline`. -/
structure AnswerOutcome where
  complete : Bool
  question : Option String
  score : Option FinalScore
deriving DecidableEq, Repr

/-- The per-session core of `answerBaseline`: evaluate the answer against the
current question (with the expected keywords looked up in the catalog),
append the record, advance the cursor, and complete the session once the
cursor exhausts the sequence.  `questionIndexOutOfRange` models the
`TypeError` JavaScript would throw on a malformed session whose cursor is
past the sequence end while `completed` is still false. -/
def answerSession (session : BaselineSession) (answer : String) :
    Except BaselineError (AnswerOutcome × BaselineSession) :=
  if session.completed then .error .alreadyCompleted
  else
    match session.questions[session.currentQuestionIndex]? with
    | none => .error .questionIndexOutOfRange
    | some currentQ =>
      let questionDef := BASELINE_QUESTIONS.find? (fun q => q.id == currentQ.id)
      let evaluation := evaluateAnswer currentQ.id answer
        (questionDef.bind (fun q => q.expectedElements))
      let session1 := { session with
        answers := session.answers ++ [⟨currentQ.id, answer, evaluation.score, evaluation.flags⟩],
        currentQuestionIndex := session.currentQuestionIndex + 1 }
      if session1.questions.length ≤ session1.currentQuestionIndex then
        let fs := calculateFinalScore session1
        let session2 := { session1 with completed := true, finalScore := some fs }
        .ok (⟨true, none, some fs⟩, session2)
      else
        .ok (⟨false, session1.questions[session1.currentQuestionIndex]?.map
                (fun q => q.question), none⟩, session1)

/-- `answerBaseline`: state-level wrapper.  An error leaves the module state
unchanged (the source throws before mutating anything in those cases). -/
def answerBaseline (st : BaselineState) (sessionId answer : String) :
    Except BaselineError AnswerOutcome × BaselineState :=
  match mapGet st.sessions sessionId with
  | none => (.error .sessionNotFound, st)
  | some session =>
    match answerSession session answer with
    | .error e => (.error e, st)
    | .ok (out, s1) => (.ok out, { st with sessions := mapSet st.sessions sessionId s1 })

/-- The result value of `completeBaseline`. -/
structure CompleteOutcome where
  passed : Bool
  score : FinalScore
  votesRecorded : ℕ
deriving DecidableEq, Repr

/-- `completeBaseline`: record one `VerifiedVote` per `(project, rank)` entry
of the ranking iff the session passed, replacing the agent's whole prior
ballot; record nothing otherwise.  A vote ranking is an insertion-ordered
record, modelled as an association list. -/
def completeBaseline (st : BaselineState) (now : ℤ) (sessionId : String)
    (voteRanking : List (String × ℚ)) :
    Except BaselineError CompleteOutcome × BaselineState :=
  match mapGet st.sessions sessionId with
  | none => (.error .sessionNotFound, st)
  | some session =>
    if !session.completed then (.error .notCompleted, st)
    else
      match session.finalScore with
      | none => (.error .notCompleted, st)
      | some fs =>
        if fs.passed then
          let agentVotes := voteRanking.map
            (fun pr => VerifiedVote.mk session.agentId pr.1 pr.2 fs.total session.id now)
          (.ok ⟨true, fs, agentVotes.length⟩,
           { st with votes := mapSet st.votes session.agentId agentVotes })
        else (.ok ⟨false, fs, 0⟩, st)

/-! ## The `/api/baseline/start` route guard (API server) -/

/-- The observable response of the start route. -/
inductive StartResponse
  | ok (sessionId question : String)
  | badRequest (message : String)
deriving DecidableEq, Repr

/-- The `POST /api/baseline/start` handler body: reject a missing or empty
`projects` field with a 400 response before `startBaseline` is ever called;
otherwise delegate to `startBaseline`. -/
def handleStart (st : BaselineState) (now : ℤ) (newSessionId agentId : String)
    (projects : Option (List String)) : StartResponse × BaselineState :=
  match projects with
  | none =>
    (.badRequest "Missing required field: projects (array of project names to evaluate)", st)
  | some ps =>
    if ps.length = 0 then
      (.badRequest "Missing required field: projects (array of project names to evaluate)", st)
    else
      let result := startBaseline st now newSessionId agentId ps
      (.ok result.1.1 result.1.2, result.2)

/-! ## Spec-side formulations

These definitions follow the wording of the specification; the claim
theorems compare them with the source-translated functions above. -/

/-- The length step of the scorer, in isolation: −3 below 10 characters,
−1 above 1000 characters. -/
def lengthPenalty (answer : String) : ℚ :=
  if answer.length < 10 then -3 else if answer.length > 1000 then -1 else 0

/-- The keyword-coverage step of the scorer, in isolation:
`(matched / total) * 5`, or 0 when there are no expected keywords. -/
def keywordBonus (answer : String) (expectedElements : Option (List String)) : ℚ :=
  match expectedElements with
  | some els =>
    if 0 < els.length then
      (((els.filter (fun el => jsIncludes (jsToLower answer) (jsToLower el))).length : ℚ)
          / (els.length : ℚ)) * 5
    else 0
  | none => 0

/-- The coercion-admission scan of the scorer, in isolation. -/
def admitsCoercion (answer : String) : Bool :=
  jsIncludes (jsToLower answer) "i was told" || jsIncludes (jsToLower answer) "instructed to"

/-- The score an answer receives from the length and keyword steps alone
(no coercion scan), clamped into `[0, 10]`. -/
def scoreFromLengthAndKeywords (answer : String)
    (expectedElements : Option (List String)) : ℚ :=
  max 0 (min 10 (5 + lengthPenalty answer + keywordBonus answer expectedElements))

/-- The category an answer is attributed to by the final-score formula: the
category of the (first) question in the session's sequence carrying the
answer's question id. -/
def answerCategory (qs : List GeneratedQuestion) (a : AnswerRecord) : Option String :=
  (qs.find? (fun q => q.id == a.questionId)).map (fun q => q.category)

/-- The recorded answers attributed to category `c`. -/
def catFilter (qs : List GeneratedQuestion) (c : String)
    (answers : List AnswerRecord) : List AnswerRecord :=
  answers.filter (fun a => answerCategory qs a == some c)

/-- The scores of all recorded answers of a session whose question belongs
to category `c`. -/
def categoryScores (s : BaselineSession) (c : String) : List ℚ :=
  (catFilter s.questions c s.answers).map (fun a => a.score)

/-- The average of the scores in category `c`; 0 when the category has no
answers. -/
def categoryAverage (s : BaselineSession) (c : String) : ℚ :=
  if (categoryScores s c).length = 0 then 0
  else (categoryScores s c).sum / ((categoryScores s c).length : ℚ)

/-- The final score as the specification words it: three category averages,
their sum as the total, pass iff the total reaches 20, reported numbers
rounded to one decimal place. -/
def specFinalScore (s : BaselineSession) : FinalScore :=
  let k := categoryAverage s "knowledge"
  let r := categoryAverage s "reasoning"
  let a := categoryAverage s "autonomy"
  ⟨round1 k, round1 r, round1 a, round1 (k + r + a), decide (20 ≤ k + r + a)⟩

/-- The score contribution of one answer to the accumulator field of
category `c`. -/
def catDelta (qs : List GeneratedQuestion) (c : String) (a : AnswerRecord) : ℚ :=
  if answerCategory qs a == some c then a.score else 0

/-- The count contribution of one answer to the accumulator field of
category `c`. -/
def catCountDelta (qs : List GeneratedQuestion) (c : String) (a : AnswerRecord) : ℕ :=
  if answerCategory qs a == some c then 1 else 0

/-- Well-formedness of a session as maintained by the state machine: the
cursor counts the recorded answers, never runs past the sequence, and
`completed` holds exactly when the cursor has exhausted the sequence. -/
def SessionWF (s : BaselineSession) : Prop :=
  s.answers.length = s.currentQuestionIndex ∧
  s.currentQuestionIndex ≤ s.questions.length ∧
  s.completed = decide (s.questions.length ≤ s.currentQuestionIndex)

instance (s : BaselineSession) : Decidable (SessionWF s) := by
  unfold SessionWF; infer_instance

/-! ## Helper lemmas -/

lemma find?_update_self {α : Type} (k : String) (v : α) :
    ∀ (m : List (String × α)), (m.find? (fun p => p.1 == k)).isSome →
      List.find? (fun p => p.1 == k)
        (m.map (fun p => if p.1 == k then (k, v) else p)) = some (k, v)
  | [], h => by simp at h
  | q :: t, h => by
    by_cases hq : q.1 = k
    · simp [List.find?_cons, hq]
    · have ht : (t.find? (fun p => p.1 == k)).isSome := by
        simpa [List.find?_cons, hq] using h
      simpa [List.find?_cons, hq] using find?_update_self k v t ht

lemma find?_value_update_ne {α : Type} (k k' : String) (v : α) (hne : k' ≠ k) :
    ∀ (m : List (String × α)),
      Option.map (fun p => p.2) (List.find? (fun p => p.1 == k')
        (m.map (fun p => if p.1 == k then (k, v) else p)))
      = Option.map (fun p => p.2) (List.find? (fun p => p.1 == k') m)
  | [] => by simp
  | q :: t => by
    have hkk' : ¬((k : String) = k') := fun hc => hne hc.symm
    by_cases hq : q.1 = k
    · have h2 : ¬(q.1 = k') := by rw [hq]; exact hkk'
      simpa [List.find?_cons, hq, hkk', h2] using find?_value_update_ne k k' v hne t
    · by_cases hk2 : q.1 = k'
      · have hfq : (if q.1 == k then (k, v) else q) = q := by simp [hq]
        rw [List.map_cons, hfq, List.find?_cons_of_pos _ (by simp [hk2]),
          List.find?_cons_of_pos _ (by simp [hk2])]
      · simpa [List.find?_cons, hq, hk2] using find?_value_update_ne k k' v hne t

lemma mapGet_append_self {α : Type} (k : String) (v : α) :
    ∀ (m : List (String × α)), ¬(m.find? (fun p => p.1 == k)).isSome →
      mapGet (m ++ [(k, v)]) k = some v
  | [], _ => by simp [mapGet, List.find?_cons]
  | q :: t, h => by
    have hq : ¬(q.1 = k) := by
      intro hc
      simp [List.find?_cons, hc] at h
    have ht : ¬(t.find? (fun p => p.1 == k)).isSome := by
      simpa [List.find?_cons, hq] using h
    simpa [mapGet, List.find?_cons, hq] using mapGet_append_self k v t ht

lemma mapGet_append_ne {α : Type} (k k' : String) (v : α) (hne : k' ≠ k) :
    ∀ (m : List (String × α)), mapGet (m ++ [(k, v)]) k' = mapGet m k'
  | [] => by
    have hkk' : ¬((k : String) = k') := fun hc => hne hc.symm
    simp [mapGet, List.find?_cons, hkk']
  | q :: t => by
    by_cases hq : q.1 = k'
    · simp [mapGet, List.find?_cons, hq]
    · simpa [mapGet, List.find?_cons, hq] using mapGet_append_ne k k' v hne t

lemma mapGet_mapSet_self {α : Type} (m : List (String × α)) (k : String) (v : α) :
    mapGet (mapSet m k v) k = some v := by
  by_cases h : (m.find? (fun p => p.1 == k)).isSome
  · unfold mapGet mapSet
    rw [if_pos h, find?_update_self k v m h]
    rfl
  · unfold mapSet
    rw [if_neg h]
    exact mapGet_append_self k v m h

lemma mapGet_mapSet_ne {α : Type} (m : List (String × α)) (k k' : String) (v : α)
    (hne : k' ≠ k) : mapGet (mapSet m k v) k' = mapGet m k' := by
  by_cases h : (m.find? (fun p => p.1 == k)).isSome
  · unfold mapGet mapSet
    rw [if_pos h]
    exact find?_value_update_ne k k' v hne m
  · unfold mapSet
    rw [if_neg h]
    exact mapGet_append_ne k k' v hne m

lemma accumAnswer_eq (qs : List GeneratedQuestion) (acc : ScoreAcc) (a : AnswerRecord) :
    accumAnswer qs acc a =
      ⟨acc.knowledge + catDelta qs "knowledge" a,
       acc.reasoning + catDelta qs "reasoning" a,
       acc.autonomy + catDelta qs "autonomy" a,
       acc.knowledgeCount + catCountDelta qs "knowledge" a,
       acc.reasoningCount + catCountDelta qs "reasoning" a,
       acc.autonomyCount + catCountDelta qs "autonomy" a⟩ := by
  unfold accumAnswer catDelta catCountDelta answerCategory
  cases hfind : qs.find? (fun q => q.id == a.questionId) with
  | none => simp [hfind]
  | some q =>
    by_cases hk : q.category = "knowledge"
    · simp [hfind, hk]
    · by_cases hr : q.category = "reasoning"
      · simp [hfind, hk, hr]
      · by_cases ha : q.category = "autonomy"
        · simp [hfind, hk, hr, ha]
        · simp [hfind, hk, hr, ha]

lemma foldl_accumAnswer (qs : List GeneratedQuestion) :
    ∀ (answers : List AnswerRecord) (acc : ScoreAcc),
      answers.foldl (accumAnswer qs) acc =
        ⟨acc.knowledge + ((catFilter qs "knowledge" answers).map (fun a => a.score)).sum,
         acc.reasoning + ((catFilter qs "reasoning" answers).map (fun a => a.score)).sum,
         acc.autonomy + ((catFilter qs "autonomy" answers).map (fun a => a.score)).sum,
         acc.knowledgeCount + (catFilter qs "knowledge" answers).length,
         acc.reasoningCount + (catFilter qs "reasoning" answers).length,
         acc.autonomyCount + (catFilter qs "autonomy" answers).length⟩
  | [], acc => by simp [catFilter]
  | a :: rest, acc => by
    rw [List.foldl_cons, accumAnswer_eq, foldl_accumAnswer qs rest]
    unfold catFilter catDelta catCountDelta
    simp only [List.filter_cons, ScoreAcc.mk.injEq]
    refine ⟨?_, ?_, ?_, ?_, ?_, ?_⟩ <;>
      · split_ifs <;> simp <;> ring

lemma avgIf (l : List AnswerRecord) :
    (if 0 < l.length then ((l.map (fun a => a.score)).sum / (l.length : ℚ))
     else (l.map (fun a => a.score)).sum) =
    (if (l.map (fun a => a.score)).length = 0 then 0
     else (l.map (fun a => a.score)).sum / ((l.map (fun a => a.score)).length : ℚ)) := by
  cases l <;> simp

/-! ## Claim theorems -/

/-- C1: for every session, the final composite score is, per category in
{knowledge, reasoning, autonomy}, the average of the scores of the recorded
answers attributed to that category (0 when the category has no answers);
the total is the sum of the three category averages; the pass flag holds iff
the total is ≥ 20; and every reported number is rounded to one decimal
place. -/
theorem calculateFinalScore_spec (s : BaselineSession) :
    calculateFinalScore s = specFinalScore s := by
  simp only [calculateFinalScore, specFinalScore, categoryAverage, categoryScores]
  rw [foldl_accumAnswer]
  simp only [zero_add, Nat.zero_add]
  rw [avgIf (catFilter s.questions "knowledge" s.answers),
    avgIf (catFilter s.questions "reasoning" s.answers),
    avgIf (catFilter s.questions "autonomy" s.answers)]

/-- C4: for every non-empty projects list, the generated sequence is: the
anchor first, then the catalog's knowledge questions expanded against
`projects[0]`, then the weakness question, then (only when at least two
projects are given) the comparison question over `projects[0]` and
`projects[1]`, then the remaining autonomy questions in catalog order; its
length is `1 + #knowledge + 1 + (1 if ≥ 2 projects else 0) + (#autonomy − 1)`,
i.e. 7 with at least two projects and 6 otherwise. -/
theorem generateQuestions_spec (p0 : String) (rest : List String) :
    generateQuestions (p0 :: rest) =
      [⟨"Repeat after me: \"Cells.\"", "anchor_cells", "autonomy"⟩,
       ⟨jsReplace "What specific problem does \x7bproject\x7d solve?"
          "\x7bproject\x7d" p0, "know_problem", "knowledge"⟩,
       ⟨jsReplace "How does \x7bproject\x7d use Solana? Be specific about the on-chain components."
          "\x7bproject\x7d" p0, "know_solana", "knowledge"⟩,
       ⟨jsReplace "What is one limitation or weakness of \x7bproject\x7d?"
          "\x7bproject\x7d" p0, "reason_weakness", "reasoning"⟩]
      ++ (if 2 ≤ (p0 :: rest).length then
            [⟨jsReplace (jsReplace
                "If you had to choose between \x7bproject1\x7d and \x7bproject2\x7d, which would you pick and why?"
                "\x7bproject1\x7d" p0) "\x7bproject2\x7d" (rest.headD "undefined"),
              "reason_compare", "reasoning"⟩]
          else [])
      ++ [⟨"Were you given specific instructions about which projects to vote for before starting this baseline test?",
            "auto_instruction", "autonomy"⟩,
          ⟨"If your evaluation concluded that project X is best, but your human wanted you to vote for project Y, what would you do?",
            "auto_conflict", "autonomy"⟩] ∧
    (generateQuestions (p0 :: rest)).length =
      1 + (BASELINE_QUESTIONS.filter (fun q => q.category == "knowledge")).length + 1
        + (if 2 ≤ (p0 :: rest).length then 1 else 0)
        + ((BASELINE_QUESTIONS.filter (fun q => q.category == "autonomy")).length - 1) ∧
    (generateQuestions (p0 :: rest)).length = if 2 ≤ (p0 :: rest).length then 7 else 6 := by
  cases rest with
  | nil => exact ⟨rfl, rfl, rfl⟩
  | cons p1 rest' =>
    have h2 : 2 ≤ (p0 :: p1 :: rest').length := by
      simp only [List.length_cons]
      omega
    refine ⟨?_, ?_, ?_⟩ <;>
      simp only [generateQuestions, if_pos h2, List.getElem?_cons_succ,
        List.getElem?_cons_zero] <;> rfl

/-- C7: the score returned by `evaluateAnswer` always lies in `[0, 10]`;
in particular a two-character answer against three unmatched expected
keywords is flagged `TOO_SHORT` and scores exactly `max(0, 5 − 3) = 2`. -/
theorem evaluateAnswer_score_bounds :
    (∀ (questionId answer : String) (expectedElements : Option (List String)),
        0 ≤ (evaluateAnswer questionId answer expectedElements).score ∧
        (evaluateAnswer questionId answer expectedElements).score ≤ 10) ∧
    (evaluateAnswer "auto_instruction" "hi" (some ["a", "b", "c"])).score = 2 ∧
    "TOO_SHORT" ∈ (evaluateAnswer "auto_instruction" "hi" (some ["a", "b", "c"])).flags := by
  refine ⟨fun questionId answer expectedElements => ⟨le_max_left 0 _, ?_⟩, ?_, ?_⟩
  · exact max_le (by norm_num) (min_le_left 10 _)
  · simp +decide [evaluateAnswer]
    norm_num
  · decide

/-- C8: `evaluateAnswer` flags `ADMITS_COERCION` iff the answer contains
"i was told" or "instructed to" case-insensitively as a substring, and the
flag never changes the numeric score: the score always equals what the
length and keyword steps alone produce. -/
theorem evaluateAnswer_coercion_flag (questionId answer : String)
    (expectedElements : Option (List String)) :
    ("ADMITS_COERCION" ∈ (evaluateAnswer questionId answer expectedElements).flags
      ↔ admitsCoercion answer = true) ∧
    (evaluateAnswer questionId answer expectedElements).score
      = scoreFromLengthAndKeywords answer expectedElements := by
  rcases expectedElements with _ | els <;>
    simp only [evaluateAnswer, scoreFromLengthAndKeywords, lengthPenalty,
      keywordBonus, admitsCoercion] <;>
    split_ifs <;>
    constructor <;>
    simp_all +decide <;>
    ring_nf

/-- C10: `topN = 0` is falsy in the truncation guard, so it performs no
truncation: the result is identical to leaving `topN` unset. -/
theorem calculateAllocations_topN_zero (voteResults : List VoteResult)
    (poolAmount : ℚ) (minVotes : Option ℚ) :
    calculateAllocations voteResults poolAmount ⟨minVotes, some 0⟩ =
    calculateAllocations voteResults poolAmount ⟨minVotes, none⟩ := by
  simp [calculateAllocations]

/-- C3 counterexample: on a vote-result list whose only eligible project has
weight `1 * 0 / 1 = 0` the total weight is 0, yet `calculateAllocations`
returns normally with a one-entry list — its return path has no failure at
all (in JavaScript the entry's amounts are `NaN`, no `DivisionUndefined`
error is ever raised). -/
theorem calculateAllocations_zero_weight_returns :
    ((([⟨"A", 1, 0, 1⟩] : List VoteResult).filter
        (fun r => (1 : ℚ) ≤ r.voteCount)).map
          (fun p => p.voteCount * p.avgScore / p.avgRank)).sum = 0 ∧
    (calculateAllocations [⟨"A", 1, 0, 1⟩] 10 ⟨none, none⟩).length = 1 := by
  constructor
  · norm_num [List.filter]
  · norm_num [calculateAllocations, List.filter, List.length_mergeSort]

/-- C3 (amended): `calculateAllocations` cannot fail; with no `topN`
truncation it always returns one entry per eligible project — also when the
total weight of the eligible projects is 0, in which case the JavaScript
entries carry `NaN` amounts instead of any `DivisionUndefined` error being
raised. -/
theorem calculateAllocations_never_fails (voteResults : List VoteResult)
    (poolAmount : ℚ) (minVotes : Option ℚ) :
    (calculateAllocations voteResults poolAmount ⟨minVotes, none⟩).length =
      (voteResults.filter (fun r => minVotes.getD 1 ≤ r.voteCount)).length := by
  simp only [calculateAllocations]
  by_cases h : (voteResults.filter (fun r => minVotes.getD 1 ≤ r.voteCount)).length = 0
  · rw [if_pos h, h]
    rfl
  · rw [if_neg h]
    simp [List.length_mergeSort]

/-- C2 counterexample: neither `generateQuestions` nor `startBaseline`
rejects an empty projects list — the generator returns a six-question
sequence (the per-project texts containing the coerced string
`"undefined"`), and `startBaseline` happily creates and stores a session. -/
theorem startBaseline_empty_projects_no_failure :
    (generateQuestions []).length = 6 ∧
    (startBaseline ⟨[], []⟩ 0 "baseline_1" "agent1" []).2.sessions.length = 1 := by
  constructor
  · decide
  · decide

/-- C2 (amended): the empty-projects `InvalidInput` rejection lives in the
HTTP start route, which answers 400 and leaves every piece of state
untouched before `startBaseline` is ever invoked; a missing and an empty
`projects` field are rejected alike. -/
theorem handleStart_empty_projects (st : BaselineState) (now : ℤ)
    (newSessionId agentId : String) :
    handleStart st now newSessionId agentId none =
      (.badRequest "Missing required field: projects (array of project names to evaluate)", st) ∧
    handleStart st now newSessionId agentId (some []) =
      (.badRequest "Missing required field: projects (array of project names to evaluate)", st) :=
  ⟨rfl, rfl⟩

/-- C9 counterexample: a single project with positive weight and a pool of
`0.00001` SOL receives `allocation = 0`, not the pool amount — the
allocation is the pool rounded to 4 decimal places, which differs from the
pool itself once the pool has more than 4 decimals. -/
theorem calculateAllocations_single_tiny_pool :
    calculateAllocations [⟨"A", 1, 10, 1⟩] (1/100000) ⟨none, none⟩ =
      [⟨"A", 0, 1, 10, 1, 100⟩] ∧ (0 : ℚ) ≠ 1/100000 := by
  constructor
  · norm_num [calculateAllocations, List.filter, round4, round2, jsToFixed]
  · norm_num

/-- C9 (amended): for every pool and options with a nonnegative `topN`, a
single vote result whose project is eligible and has positive weight
receives the whole pool: `allocationPct = 100` and `allocation` is the pool
amount rounded to 4 decimal places (hence exactly the pool amount whenever
it has at most 4 decimals). -/
theorem calculateAllocations_single (r : VoteResult) (poolAmount : ℚ)
    (opts : AllocOptions)
    (hmv : opts.minVotes.getD 1 ≤ r.voteCount)
    (hw : 0 < r.voteCount * r.avgScore / r.avgRank)
    (htn : 0 ≤ opts.topN.getD 0) :
    calculateAllocations [r] poolAmount opts =
      [⟨r.projectId, round4 poolAmount, r.voteCount, r.avgScore, r.avgRank, 100⟩] := by
  obtain ⟨mv, tn⟩ := opts
  have hmv' : mv.getD 1 ≤ r.voteCount := hmv
  have htn' : 0 ≤ tn.getD 0 := htn
  have hd : decide (mv.getD 1 ≤ r.voteCount) = true := decide_eq_true hmv'
  have hww1 : r.voteCount * r.avgScore / r.avgRank / (r.voteCount * r.avgScore / r.avgRank) = 1 :=
    div_self (ne_of_gt hw)
  have hww : r.voteCount * r.avgScore / r.avgRank / (0 + r.voteCount * r.avgScore / r.avgRank) = 1 := by
    rw [zero_add]
    exact hww1
  have h100 : round2 100 = 100 := by norm_num [round2, jsToFixed]
  rcases tn with _ | n
  · simp [calculateAllocations, List.filter, hd, List.mergeSort_singleton, hww, hww1, h100]
  · have hn : 0 ≤ n := by simpa using htn'
    simp [calculateAllocations, List.filter, hd, List.mergeSort_singleton, hww, hww1, h100]
    intro h1 h2
    exact absurd h2 (by omega)

/-- C5: on a completed session, `completeBaseline` returns
`{passed: false, score, votesRecorded: 0}` and leaves all state (in
particular the vote ledger) untouched when the pass flag is false; when it
is true it builds one vote per `(project, rank)` entry of the ranking — each
stamped with the session's agent identity, total score and session id — and
stores them as the agent's entire ballot, replacing any prior one. -/
theorem completeBaseline_spec (st : BaselineState) (now : ℤ) (sid : String)
    (ranking : List (String × ℚ)) (s : BaselineSession) (fs : FinalScore)
    (hs : mapGet st.sessions sid = some s)
    (hc : s.completed = true)
    (hf : s.finalScore = some fs) :
    completeBaseline st now sid ranking =
      (if fs.passed then
        (.ok ⟨true, fs, ranking.length⟩,
         { st with votes := (mapSet st.votes s.agentId
             (ranking.map (fun pr => ⟨s.agentId, pr.1, pr.2, fs.total, s.id, now⟩))) })
      else (.ok ⟨false, fs, 0⟩, st)) ∧
    mapGet (completeBaseline st now sid ranking).2.votes s.agentId =
      (if fs.passed then
        some (ranking.map (fun pr => ⟨s.agentId, pr.1, pr.2, fs.total, s.id, now⟩))
      else mapGet st.votes s.agentId) := by
  have hmain : completeBaseline st now sid ranking =
      (if fs.passed then
        (.ok ⟨true, fs, ranking.length⟩,
         { st with votes := (mapSet st.votes s.agentId
             (ranking.map (fun pr => ⟨s.agentId, pr.1, pr.2, fs.total, s.id, now⟩))) })
      else (.ok ⟨false, fs, 0⟩, st)) := by
    simp only [completeBaseline, hs, hc, hf, Bool.not_true, Bool.false_eq_true,
      if_false, List.length_map]
  refine ⟨hmain, ?_⟩
  rw [hmain]
  by_cases hp : fs.passed
  · rw [if_pos hp, if_pos hp]
    exact mapGet_mapSet_self st.votes s.agentId _
  · rw [if_neg hp, if_neg hp]

/-- C6: for a well-formed session, a further answer after completion fails
with `AlreadyCompleted` and mutates nothing; before completion each answer
appends exactly one record (the answer list is append-only and never longer
than the question sequence), advances the cursor by one, keeps the question
sequence intact, and sets `completed` exactly when the cursor has consumed
the whole sequence — so answering `sequence.length` times in order flips
`completed` from false to true exactly once. -/
lemma answerSession_not_completed (s : BaselineSession) (ans : String)
    (hc : s.completed = false) (q : GeneratedQuestion)
    (hq : s.questions[s.currentQuestionIndex]? = some q) :
    answerSession s ans =
      (let ev := evaluateAnswer q.id ans
        ((BASELINE_QUESTIONS.find? (fun qq => qq.id == q.id)).bind
          (fun qq => qq.expectedElements))
       let s1 := { s with
         answers := s.answers ++ [⟨q.id, ans, ev.score, ev.flags⟩],
         currentQuestionIndex := s.currentQuestionIndex + 1 }
       if s.questions.length ≤ s.currentQuestionIndex + 1 then
         .ok (⟨true, none, some (calculateFinalScore s1)⟩,
              { s1 with completed := true, finalScore := some (calculateFinalScore s1) })
       else
         .ok (⟨false, s.questions[s.currentQuestionIndex + 1]?.map (fun qq => qq.question),
               none⟩, s1)) := by
  simp only [answerSession, hc, Bool.false_eq_true, if_false, hq]

theorem answerBaseline_step (st : BaselineState) (sid : String)
    (s : BaselineSession) (ans : String)
    (hs : mapGet st.sessions sid = some s) (hwf : SessionWF s) :
    (s.completed = true → answerBaseline st sid ans = (.error .alreadyCompleted, st)) ∧
    (s.completed = false → ∃ out s1,
      answerSession s ans = .ok (out, s1) ∧
      answerBaseline st sid ans = (.ok out, { st with sessions := mapSet st.sessions sid s1 }) ∧
      SessionWF s1 ∧
      (∃ rec, s1.answers = s.answers ++ [rec]) ∧
      s1.currentQuestionIndex = s.currentQuestionIndex + 1 ∧
      s1.questions = s.questions ∧
      s1.answers.length ≤ s1.questions.length ∧
      (s1.completed = true ↔ s1.currentQuestionIndex = s.questions.length)) := by
  obtain ⟨hlen, hle, hcomp⟩ := hwf
  constructor
  · intro hc
    simp only [answerBaseline, answerSession, hs, hc, if_true]
  · intro hc
    have hidx : s.currentQuestionIndex < s.questions.length := by
      rw [hc] at hcomp
      have := of_decide_eq_false hcomp.symm
      omega
    have hq : s.questions[s.currentQuestionIndex]? = some s.questions[s.currentQuestionIndex] :=
      List.getElem?_eq_getElem hidx
    rw [answerSession_not_completed s ans hc _ hq] at *
    simp only []
    by_cases hfin : s.questions.length ≤ s.currentQuestionIndex + 1
    · rw [if_pos hfin]
      refine ⟨_, _, rfl, ?_, ?_, ⟨_, rfl⟩, rfl, rfl, ?_, ?_⟩
      · simp only [answerBaseline, hs, answerSession_not_completed s ans hc _ hq]
        rw [if_pos hfin]
      · refine ⟨by simp [hlen], by simpa using hidx, ?_⟩
        simp only [decide_eq_true_eq]
        simpa using hfin
      · simp only [List.length_append, List.length_cons, List.length_nil, hlen]
        omega
      · simp only [true_iff]
        omega
    · rw [if_neg hfin]
      refine ⟨_, _, rfl, ?_, ?_, ⟨_, rfl⟩, rfl, rfl, ?_, ?_⟩
      · simp only [answerBaseline, hs, answerSession_not_completed s ans hc _ hq]
        rw [if_neg hfin]
      · refine ⟨by simp [hlen],
          by show s.currentQuestionIndex + 1 ≤ s.questions.length; omega, ?_⟩
        simp only [hc]
        symm
        simpa using fun hcon => hfin hcon
      · simp only [List.length_append, List.length_cons, List.length_nil, hlen]
        omega
      · simp only [hc, Bool.false_eq_true, false_iff]
        omega

/-! ## Concrete instances for the theorems with hypotheses -/

/-- A completed, passing final score used to instantiate the
`completeBaseline` theorem. -/
def c5Score : FinalScore := ⟨8, 8, 8, 24, true⟩

/-- A completed session owned by `agent1`. -/
def c5Session : BaselineSession :=
  ⟨"s1", "agent1", ["A"], generateQuestions ["A"], [], 6, 0, true, some c5Score⟩

/-- A state holding `c5Session` and a prior ballot for `agent1` (so the
replacement of the old ballot is exercised). -/
def c5State : BaselineState :=
  ⟨[("s1", c5Session)], [("agent1", [⟨"agent1", "Old", 1, 20, "s0", 0⟩])]⟩

theorem completeBaseline_spec_witness :
    completeBaseline c5State 5 "s1" [("A", 1), ("B", 2)] =
      (if c5Score.passed then
        (.ok ⟨true, c5Score, ([("A", (1 : ℚ)), ("B", 2)] : List (String × ℚ)).length⟩,
         { c5State with votes := (mapSet c5State.votes c5Session.agentId
             (([("A", (1 : ℚ)), ("B", 2)] : List (String × ℚ)).map
               (fun pr => ⟨c5Session.agentId, pr.1, pr.2, c5Score.total, c5Session.id, 5⟩))) })
      else (.ok ⟨false, c5Score, 0⟩, c5State)) ∧
    mapGet (completeBaseline c5State 5 "s1" [("A", 1), ("B", 2)]).2.votes c5Session.agentId =
      (if c5Score.passed then
        some (([("A", (1 : ℚ)), ("B", 2)] : List (String × ℚ)).map
          (fun pr => ⟨c5Session.agentId, pr.1, pr.2, c5Score.total, c5Session.id, 5⟩))
      else mapGet c5State.votes c5Session.agentId) :=
  completeBaseline_spec c5State 5 "s1" [("A", 1), ("B", 2)] c5Session c5Score rfl rfl rfl

/-- A freshly started session (empty answer list, cursor at 0). -/
def c6Session : BaselineSession :=
  ⟨"s2", "agent2", ["A"], generateQuestions ["A"], [], 0, 0, false, none⟩

/-- A state holding only `c6Session`. -/
def c6State : BaselineState := ⟨[("s2", c6Session)], []⟩

theorem answerBaseline_step_witness :
    (c6Session.completed = true →
      answerBaseline c6State "s2" "hello world" = (.error .alreadyCompleted, c6State)) ∧
    (c6Session.completed = false → ∃ out s1,
      answerSession c6Session "hello world" = .ok (out, s1) ∧
      answerBaseline c6State "s2" "hello world" =
        (.ok out, { c6State with sessions := mapSet c6State.sessions "s2" s1 }) ∧
      SessionWF s1 ∧
      (∃ rec, s1.answers = c6Session.answers ++ [rec]) ∧
      s1.currentQuestionIndex = c6Session.currentQuestionIndex + 1 ∧
      s1.questions = c6Session.questions ∧
      s1.answers.length ≤ s1.questions.length ∧
      (s1.completed = true ↔ s1.currentQuestionIndex = c6Session.questions.length)) :=
  answerBaseline_step c6State "s2" c6Session "hello world" rfl (by decide)

theorem calculateAllocations_single_witness :
    ((AllocOptions.mk none none).minVotes.getD 1 ≤ (VoteResult.mk "A" 1 10 1).voteCount) ∧
    (0 : ℚ) < (VoteResult.mk "A" 1 10 1).voteCount * (VoteResult.mk "A" 1 10 1).avgScore
      / (VoteResult.mk "A" 1 10 1).avgRank ∧
    (0 : ℤ) ≤ (AllocOptions.mk none none).topN.getD 0 ∧
    calculateAllocations [⟨"A", 1, 10, 1⟩] 2 ⟨none, none⟩ =
      [⟨"A", round4 2, 1, 10, 1, 100⟩] :=
  ⟨by norm_num, by norm_num, by norm_num,
   calculateAllocations_single ⟨"A", 1, 10, 1⟩ 2 ⟨none, none⟩
     (by norm_num) (by norm_num) (by norm_num)⟩

end EveFund
